import Mathlib

/-!
Shallow embedding of the Agbokoudjo/http_client core: the status classifier
(`src/utils/index.ts`), the response wrapper predicates
(`src/core/FetchResponse.ts`, class `MapStatusToResponseType`), the
retry/timeout engine (`safeFetch`) and the lifecycle orchestrator
(`FetchRequest.handle` / `cancel`).  JavaScript numbers carrying HTTP status
codes are modelled as `Int`; booleans as `Bool`; the network is an oracle
giving each attempt's outcome.  Bodies, headers and URLs are dropped: no
verified property mentions them.
-/

set_option autoImplicit false

namespace HttpClient

/-! ### Status classifier — `src/src/utils/index.ts` -/

/-- Embeds `isClientError` (utils/index.ts lines 13-15):
`statusCode >= 400 && statusCode < 500`. -/
def isClientError (statusCode : Int) : Bool :=
  decide (400 ≤ statusCode) && decide (statusCode < 500)

/-- Embeds `isServerError` (utils/index.ts lines 17-19):
`statusCode >= 500 && statusCode < 600`. -/
def isServerError (statusCode : Int) : Bool :=
  decide (500 ≤ statusCode) && decide (statusCode < 600)

/-- The result type of `mapStatusToResponseType` (utils/index.ts line 26). -/
inductive MappedHttpStatus
  | success
  | info
  | warning
  | error
  | redirect
deriving DecidableEq, Repr

/-- Embeds `mapStatusToResponseType` (utils/index.ts lines 28-33): the
first matching band wins, everything else falls through to `error`. -/
def mapStatusToResponseType (statusCode : Int) : MappedHttpStatus :=
  if 200 ≤ statusCode ∧ statusCode < 300 then .success
  else if 100 ≤ statusCode ∧ statusCode < 200 then .info
  else if 300 ≤ statusCode ∧ statusCode < 400 then .redirect
  else .error

/-- The five bands of the specification's Outcome Classifier (§4.1). -/
inductive StatusBand
  | info
  | success
  | redirect
  | clientError
  | serverError
deriving DecidableEq, Repr

/-- The five-band classifier of §4.1, obtained by composing the source's
`mapStatusToResponseType` with `isClientError`/`isServerError` exactly the way
the retry engine does (`safeFetch`, part_006 lines 442-449): a code whose
mapped type is `error` is refined into `clientError` / `serverError`, with
`serverError` as the total-function fallback for every remaining integer. -/
def classify (c : Int) : StatusBand :=
  match mapStatusToResponseType c with
  | .info => .info
  | .success => .success
  | .redirect => .redirect
  | _ => if isClientError c then .clientError else .serverError

/-! ### Response wrapper — `src/src/core/FetchResponse.ts` -/

/-- The part of the raw wire `Response` the verified predicates consult:
its numeric status code and its `redirected` flag. -/
structure WireResponse where
  status : Int
  redirected : Bool
deriving DecidableEq, Repr

namespace MapStatusToResponseType

/-- Getter `statusCode` (FetchResponse.ts lines 31-33): `this.response.status`. -/
def statusCode (r : WireResponse) : Int := r.status

/-- Getter `serverInfo` (FetchResponse.ts lines 35-37): `this.statusCode < 200`. -/
def serverInfo (r : WireResponse) : Bool := decide (statusCode r < 200)

/-- Getter `succeeded` (FetchResponse.ts lines 39-41):
`this.statusCode >= 200 && this.statusCode <= 299`. -/
def succeeded (r : WireResponse) : Bool :=
  decide (200 ≤ statusCode r) && decide (statusCode r ≤ 299)

/-- Getter `clientError` (FetchResponse.ts lines 43-45): `isClientError(this.statusCode)`. -/
def clientError (r : WireResponse) : Bool := isClientError (statusCode r)

/-- Getter `serverError` (FetchResponse.ts lines 47-49): `isServerError(this.statusCode)`. -/
def serverError (r : WireResponse) : Bool := isServerError (statusCode r)

/-- Getter `redirected` (FetchResponse.ts lines 51-53): `this.response.redirected`. -/
def redirectedFlag (r : WireResponse) : Bool := r.redirected

/-- Getter `failed` (FetchResponse.ts lines 55-57):
`!this.succeeded && !this.redirected && !this.serverInfo`. -/
def failed (r : WireResponse) : Bool :=
  !(succeeded r) && !(redirectedFlag r) && !(serverInfo r)

end MapStatusToResponseType

/-! ### Retry/timeout engine — `safeFetch`, `src/unnamed/part_006` lines 382-516 -/

/-- The outcome the network primitive (`fetch`) gives one attempt, as the
engine's `try`/`catch` distinguishes them (part_006 lines 437, 462-511):
a wire response, an `AbortError` rejection, a rejection whose message marks a
network failure (`NetworkError` / `Failed to fetch`), or any other rejection. -/
inductive NetOutcome
  | response (status : Int) (redirected : Bool)
  | abortError
  | networkError
  | otherError
deriving DecidableEq, Repr

/-- The flavour of an `HttpFetchError`, read off the message the source
attaches at each throw site (part_006 lines 83, 305, 473, 485, 501, 515). -/
inductive FetchErrorKind
  | timeout
  | network
  | unexpected
  | cancelled
  | fallthrough
deriving DecidableEq, Repr

/-- What one engine run settles with: a parsed response wrapper (returned,
never thrown — also for 4xx/5xx wire statuses) or a thrown `HttpFetchError`. -/
inductive SafeFetchResult
  | ok (r : WireResponse)
  | err (e : FetchErrorKind)
deriving DecidableEq, Repr

/-- The fields of `FetchRequestOptions` the engine's control flow reads
(part_006 lines 386-400).  `none` models a field the caller left `undefined`
(the destructuring default then applies); `hasSignal` records whether
`options.signal` carries the orchestrator's shared-token signal, which
`handle()` installs just before calling the engine (part_006 lines 104-107). -/
structure FetchRequestOptions where
  timeout : Option Nat
  retryCount : Option Nat
  retryOnStatusCode : Bool
  keepalive : Bool
  hasSignal : Bool
deriving DecidableEq, Repr

/-- The attempt-count normalization (part_006 lines 409-414): keep-alive
forces one attempt; otherwise an explicitly supplied count below 2 is raised
to 3; otherwise the supplied count (default 3) stands. -/
def normRetryCount (o : FetchRequestOptions) : Nat :=
  if o.keepalive then 1
  else
    let rc := o.retryCount.getD 3
    if rc < 2 ∧ o.retryCount ≠ none then 3 else rc

/-- The timeout normalization (part_006 lines 395, 409-411): keep-alive
forces 0, otherwise the supplied value (default 45000) stands. -/
def normTimeout (o : FetchRequestOptions) : Nat :=
  if o.keepalive then 0 else o.timeout.getD 45000

/-- Whether an attempt arms the per-attempt deadline timer
(part_006 lines 431-434: `if (!keepalive && timeout > 0)`). -/
def attemptHasTimer (o : FetchRequestOptions) : Bool :=
  !o.keepalive && decide (0 < normTimeout o)

/-- Which abort signal, if any, the `fetch` of an attempt listens to. -/
inductive SignalSource
  | shared
  | perAttempt
  | noSignal
deriving DecidableEq, Repr

/-- The signal `fetchParams.signal` holds when an attempt's `fetch` runs.
`fetchParams` is spread from the options once (part_006 line 417), so it
starts as `options.signal`; whenever the deadline timer is armed the field is
overwritten with the fresh per-attempt controller's signal
(part_006 line 433), disconnecting the shared token. -/
def attemptSignal (o : FetchRequestOptions) : SignalSource :=
  if attemptHasTimer o then .perAttempt
  else if o.hasSignal then .shared else .noSignal

/-- The network outcome an attempt actually observes, given the shared
token's state: a `fetch` handed an already-aborted signal rejects at once
with an `AbortError`; otherwise the oracle `net` answers.  The token reaches
the attempt only when `fetchParams.signal` still holds the shared signal. -/
def effectiveNet (o : FetchRequestOptions) (tokenTripped : Bool)
    (net : Nat → NetOutcome) (i : Nat) : NetOutcome :=
  if tokenTripped && (attemptSignal o == .shared) then .abortError else net i

/-- The engine's attempt loop (part_006 lines 427-513), structurally
recursive on the number of attempts still allowed (`remaining`, kept equal to
`retryCount - attempt`).  The second component counts the network exchanges
performed.  Branches mirror the source: a wire response whose mapped type is
`error` returns the parsed error wrapper when the status is a client error,
when it is a server error and retry-on-status is off, or on the last attempt,
and otherwise retries; any other wire response returns the parsed wrapper;
an `AbortError` throws a timeout error on the last attempt and otherwise
retries; a network rejection throws on the last attempt and otherwise
retries; any other rejection throws on the last attempt and otherwise
retries; a loop that exits throws the fallthrough error (line 515). -/
def safeFetchGo (retryCount : Nat) (retryOnStatusCode : Bool)
    (net : Nat → NetOutcome) : Nat → Nat → SafeFetchResult × Nat
  | _attempt, 0 => (.err .fallthrough, 0)
  | attempt, remaining + 1 =>
    match net attempt with
    | .response status red =>
      if mapStatusToResponseType status = .error then
        if isClientError status
            || (isServerError status && !retryOnStatusCode)
            || decide (attempt = retryCount - 1) then
          (.ok ⟨status, red⟩, 1)
        else
          let next := safeFetchGo retryCount retryOnStatusCode net (attempt + 1) remaining
          (next.1, next.2 + 1)
      else
        (.ok ⟨status, red⟩, 1)
    | .abortError =>
      if attempt = retryCount - 1 then (.err .timeout, 1)
      else
        let next := safeFetchGo retryCount retryOnStatusCode net (attempt + 1) remaining
        (next.1, next.2 + 1)
    | .networkError =>
      if attempt = retryCount - 1 then (.err .network, 1)
      else
        let next := safeFetchGo retryCount retryOnStatusCode net (attempt + 1) remaining
        (next.1, next.2 + 1)
    | .otherError =>
      if attempt = retryCount - 1 then (.err .unexpected, 1)
      else
        let next := safeFetchGo retryCount retryOnStatusCode net (attempt + 1) remaining
        (next.1, next.2 + 1)

/-- One engine run (`safeFetch`, part_006 lines 382-516): normalize the
options, then run the attempt loop from attempt 0 with the full budget.
`tokenTripped` is the shared cancellation token's state for the whole run. -/
def safeFetch (o : FetchRequestOptions) (tokenTripped : Bool)
    (net : Nat → NetOutcome) : SafeFetchResult × Nat :=
  safeFetchGo (normRetryCount o) o.retryOnStatusCode
    (effectiveNet o tokenTripped net) 0 (normRetryCount o)

/-! ### Lifecycle orchestrator — `FetchRequest`, `src/unnamed/part_006` lines 60-315 -/

/-- The mutable per-instance state `cancel()` / `isCancelled()` touch
(part_006 lines 61-64): the `_isCancelled` flag, whether `_abortController`
is non-null (the constructor always sets one, line 77), whether `abort()` has
been called on it, and how many times `_rejectRequestPromise` was invoked. -/
structure FetchRequestState where
  isCancelledFlag : Bool
  hasController : Bool
  aborted : Bool
  rejectCalls : Nat
deriving DecidableEq, Repr

namespace FetchRequest

/-- The state of a freshly constructed `FetchRequest` (part_006 lines 61-78). -/
def initialState : FetchRequestState :=
  { isCancelledFlag := false, hasController := true, aborted := false, rejectCalls := 0 }

/-- Embeds `cancel()` (part_006 lines 301-307): guarded by
`!this._isCancelled && this._abortController`, it sets the flag, aborts the
controller and rejects the pending request-interception promise with a
cancellation `HttpFetchError`; otherwise it does nothing. -/
def cancel (s : FetchRequestState) : FetchRequestState :=
  if !s.isCancelledFlag && s.hasController then
    { isCancelledFlag := true, hasController := s.hasController,
      aborted := true, rejectCalls := s.rejectCalls + 1 }
  else s

/-- Embeds `isCancelled()` (part_006 lines 312-314). -/
def isCancelled (s : FetchRequestState) : Bool := s.isCancelledFlag

end FetchRequest

/-- One phase name of `HttpClientEvents` (events/index.ts lines 50-78). -/
inductive Phase
  | request
  | beforeSend
  | response
  | error
  | terminate
deriving DecidableEq, Repr

/-- How the bus's listeners behave, uniformly per phase, for one request:
whether REQUEST listeners set a response on the event (`setResponse`),
call `preventDefault`, and resolve the interception promise handed to them;
whether BEFORE_SEND listeners set a response; the replacement RESPONSE
listeners install, if any; the response ERROR listeners attach (which marks
the error recovered, events/index.ts lines 351-363), and whether they call
`preventDefault` on the error event they are given.  The same behaviour
applies to every ERROR event dispatched, since `dispatchErrorEvent` and
`willDelegateErrorHandling` notify the same listeners with fresh events. -/
structure BusBehavior where
  requestResponse : Option WireResponse
  requestPreventsDefault : Bool
  requestInterceptionResolves : Bool
  beforeSendResponse : Option WireResponse
  responseReplace : Option WireResponse
  responsePreventsDefault : Bool
  errorResponse : Option WireResponse
  errorPreventsDefault : Bool
deriving DecidableEq, Repr

/-- When, relative to one `handle()` run, the user calls `cancel()`:
never, before `handle()` is invoked, or while the engine's network work is
in flight. -/
inductive CancelPoint
  | never
  | beforeHandle
  | duringFetch
deriving DecidableEq, Repr

/-- What one `handle()` invocation settles with: a resolved response
wrapper, a rejection carrying an `HttpFetchError` flavour, or no settlement
at all (a REQUEST listener called `preventDefault` and nobody ever resolves
the interception promise, part_006 lines 175-177). -/
inductive HandleOutcome
  | success (r : WireResponse)
  | failure (e : FetchErrorKind)
  | pending
deriving DecidableEq, Repr

/-- Observable record of one `handle()` run: how it settles, the ordered
phases dispatched to the bus, how many network exchanges the engine made,
and whether the delegate's `requestErrored` hook was invoked. -/
structure HandleResult where
  outcome : HandleOutcome
  trace : List Phase
  invocations : Nat
  delegateErrored : Bool
deriving DecidableEq, Repr

namespace FetchRequest

/-- The tail of `handle()` from the RESPONSE phase on (part_006 lines
113-115 and 213-240): dispatch the RESPONSE event, let listeners replace the
wrapper, return `event.getResponse()`; the `finally` then dispatches the
TERMINATE event (lines 133-136). -/
def responsePhase (bus : BusBehavior) (r : WireResponse)
    (trace : List Phase) (inv : Nat) : HandleResult :=
  let final := bus.responseReplace.getD r
  { outcome := .success final,
    trace := trace ++ [Phase.response, Phase.terminate],
    invocations := inv, delegateErrored := false }

/-- The `catch` branch of `handle()` (part_006 lines 117-131): dispatch a
fresh ERROR event; if a listener attached a response the error is recovered
and that response is returned; otherwise `willDelegateErrorHandling`
dispatches a second fresh ERROR event (lines 283-296), the delegate's
`requestErrored` hook runs unless that second event was default-prevented,
and the error is rethrown.  Either way the `finally` dispatches TERMINATE. -/
def errorPhase (bus : BusBehavior) (e : FetchErrorKind)
    (trace : List Phase) (inv : Nat) : HandleResult :=
  match bus.errorResponse with
  | some r =>
    { outcome := .success r,
      trace := trace ++ [Phase.error, Phase.terminate],
      invocations := inv, delegateErrored := false }
  | none =>
    { outcome := .failure e,
      trace := trace ++ [Phase.error, Phase.error, Phase.terminate],
      invocations := inv, delegateErrored := !bus.errorPreventsDefault }

/-- Embeds `handle()` (part_006 lines 81-137).  An already-cancelled request
throws the cancellation error before any phase runs (lines 82-84, outside
the `try`/`finally`).  Phase REQUEST is dispatched next (line 88, still
outside the `try`); if its event was default-prevented the run waits on the
interception promise, which settles only if a listener resolves it.  Inside
the `try`: a response supplied at REQUEST short-circuits both BEFORE_SEND
and the network; otherwise BEFORE_SEND is dispatched and may short-circuit;
otherwise the shared token's signal is installed into the options and the
engine runs, tripped exactly when `cancel()` arrives during the flight. -/
def handle (o : FetchRequestOptions) (bus : BusBehavior)
    (cancelPoint : CancelPoint) (net : Nat → NetOutcome) : HandleResult :=
  if cancelPoint = .beforeHandle then
    { outcome := .failure .cancelled, trace := [],
      invocations := 0, delegateErrored := false }
  else if bus.requestPreventsDefault && !bus.requestInterceptionResolves then
    { outcome := .pending, trace := [Phase.request],
      invocations := 0, delegateErrored := false }
  else
    match bus.requestResponse with
    | some r => responsePhase bus r [Phase.request] 0
    | none =>
      match bus.beforeSendResponse with
      | some r => responsePhase bus r [Phase.request, Phase.beforeSend] 0
      | none =>
        let run := safeFetch { o with hasSignal := true }
          (decide (cancelPoint = CancelPoint.duringFetch)) net
        match run.1 with
        | .ok r => responsePhase bus r [Phase.request, Phase.beforeSend] run.2
        | .err e => errorPhase bus e [Phase.request, Phase.beforeSend] run.2

end FetchRequest

/-! ### Concrete fixtures used by witnesses and counterexamples -/

/-- Options with every engine-relevant field left `undefined`: timeout
defaults to 45000, attempt count to 3, retry-on-status and keep-alive off. -/
def defaultOptions : FetchRequestOptions :=
  { timeout := none, retryCount := none, retryOnStatusCode := false,
    keepalive := false, hasSignal := false }

/-- Default options whose `signal` field carries the shared token's signal,
as `handle()` installs it before calling the engine. -/
def optionsSignal : FetchRequestOptions :=
  { timeout := none, retryCount := none, retryOnStatusCode := false,
    keepalive := false, hasSignal := true }

/-- The C5 scenario's options: three attempts, retry-on-status opted in. -/
def optionsRetry500 : FetchRequestOptions :=
  { timeout := none, retryCount := some 3, retryOnStatusCode := true,
    keepalive := false, hasSignal := true }

/-- The C6 scenario's options: three attempts, retry-on-status off. -/
def options404 : FetchRequestOptions :=
  { timeout := none, retryCount := some 3, retryOnStatusCode := false,
    keepalive := false, hasSignal := true }

/-- An endpoint answering 200 OK to every attempt. -/
def net200 : Nat → NetOutcome := fun _ => .response 200 false

/-- An endpoint answering 500 to every attempt. -/
def net500 : Nat → NetOutcome := fun _ => .response 500 false

/-- An endpoint answering 404 to every attempt. -/
def net404 : Nat → NetOutcome := fun _ => .response 404 false

/-- A network primitive whose every attempt is aborted. -/
def netAbort : Nat → NetOutcome := fun _ => .abortError

/-- A bus with no listeners installed: nothing supplies responses, prevents
defaults, or resolves the interception promise. -/
def plainBus : BusBehavior :=
  { requestResponse := none, requestPreventsDefault := false,
    requestInterceptionResolves := false, beforeSendResponse := none,
    responseReplace := none, responsePreventsDefault := false,
    errorResponse := none, errorPreventsDefault := false }

/-- A bus whose REQUEST listener supplies a 200 response (request-level
cache hit), with no other listener behaviour. -/
def shortBus : BusBehavior :=
  { requestResponse := some ⟨200, false⟩, requestPreventsDefault := false,
    requestInterceptionResolves := false, beforeSendResponse := none,
    responseReplace := none, responsePreventsDefault := false,
    errorResponse := none, errorPreventsDefault := false }

/-! ### Unfolding lemmas for `handle` -/

/-- Helper: the short-circuit branch of `handle` for a REQUEST-supplied
response. -/
theorem handle_eq_of_requestResponse (o : FetchRequestOptions)
    (bus : BusBehavior) (cp : CancelPoint) (net : Nat → NetOutcome)
    (r : WireResponse)
    (hcp : cp ≠ CancelPoint.beforeHandle)
    (hb : (bus.requestPreventsDefault && !bus.requestInterceptionResolves) = false)
    (hr : bus.requestResponse = some r) :
    FetchRequest.handle o bus cp net =
      FetchRequest.responsePhase bus r [Phase.request] 0 := by
  unfold FetchRequest.handle
  rw [if_neg hcp, hb, if_neg (by simp), hr]

/-- Helper: the short-circuit branch of `handle` for a BEFORE_SEND-supplied
response. -/
theorem handle_eq_of_beforeSendResponse (o : FetchRequestOptions)
    (bus : BusBehavior) (cp : CancelPoint) (net : Nat → NetOutcome)
    (r : WireResponse)
    (hcp : cp ≠ CancelPoint.beforeHandle)
    (hb : (bus.requestPreventsDefault && !bus.requestInterceptionResolves) = false)
    (hreq : bus.requestResponse = none)
    (hbs : bus.beforeSendResponse = some r) :
    FetchRequest.handle o bus cp net =
      FetchRequest.responsePhase bus r [Phase.request, Phase.beforeSend] 0 := by
  unfold FetchRequest.handle
  rw [if_neg hcp, hb, if_neg (by simp), hreq, hbs]

/-- Helper: the engine branch of `handle`, with the run's result exposed. -/
theorem handle_eq_of_engine (o : FetchRequestOptions)
    (bus : BusBehavior) (cp : CancelPoint) (net : Nat → NetOutcome)
    (hcp : cp ≠ CancelPoint.beforeHandle)
    (hb : (bus.requestPreventsDefault && !bus.requestInterceptionResolves) = false)
    (hreq : bus.requestResponse = none)
    (hbs : bus.beforeSendResponse = none) :
    FetchRequest.handle o bus cp net =
      (match (safeFetch { o with hasSignal := true }
          (decide (cp = CancelPoint.duringFetch)) net).1 with
       | .ok r => FetchRequest.responsePhase bus r [Phase.request, Phase.beforeSend]
           (safeFetch { o with hasSignal := true }
             (decide (cp = CancelPoint.duringFetch)) net).2
       | .err e => FetchRequest.errorPhase bus e [Phase.request, Phase.beforeSend]
           (safeFetch { o with hasSignal := true }
             (decide (cp = CancelPoint.duringFetch)) net).2) := by
  unfold FetchRequest.handle
  rw [if_neg hcp, hb, if_neg (by simp), hreq, hbs]

/-! ### Classifier lemmas -/

/-- Helper: the bands of `classify`, characterized per value. -/
theorem classify_eq_info_iff (c : Int) :
    classify c = .info ↔ 100 ≤ c ∧ c < 200 := by
  unfold classify mapStatusToResponseType isClientError
  split_ifs <;>
    simp_all [Bool.and_eq_true, decide_eq_true_eq] <;> omega

/-- Helper: success band of `classify`. -/
theorem classify_eq_success_iff (c : Int) :
    classify c = .success ↔ 200 ≤ c ∧ c < 300 := by
  unfold classify mapStatusToResponseType isClientError
  split_ifs <;>
    simp_all [Bool.and_eq_true, decide_eq_true_eq] <;> omega

/-- Helper: redirect band of `classify`. -/
theorem classify_eq_redirect_iff (c : Int) :
    classify c = .redirect ↔ 300 ≤ c ∧ c < 400 := by
  unfold classify mapStatusToResponseType isClientError
  split_ifs <;>
    simp_all [Bool.and_eq_true, decide_eq_true_eq] <;> omega

/-- Helper: client-error band of `classify`. -/
theorem classify_eq_clientError_iff (c : Int) :
    classify c = .clientError ↔ 400 ≤ c ∧ c < 500 := by
  unfold classify mapStatusToResponseType isClientError
  split_ifs <;>
    simp_all [Bool.and_eq_true, decide_eq_true_eq] <;> omega

/-- Helper: server-error band of `classify`, including the total-function
fallback for every integer outside [100, 600). -/
theorem classify_eq_serverError_iff (c : Int) :
    classify c = .serverError ↔ (500 ≤ c ∧ c < 600) ∨ c < 100 ∨ 600 ≤ c := by
  unfold classify mapStatusToResponseType isClientError
  split_ifs <;>
    simp_all [Bool.and_eq_true, decide_eq_true_eq] <;> omega

/-- C7: the status classifier is pure and total over the integers; it sends
[100,200) to info, [200,300) to success, [300,400) to redirect, [400,500) to
clientError, [500,600) to serverError, and every other integer to the
serverError fallback; every code gets exactly one band, so for codes ≥ 100
the five bands partition the domain with no gaps. -/
theorem classify_bands_partition :
    (∀ c : Int, 100 ≤ c → c < 200 → classify c = .info) ∧
    (∀ c : Int, 200 ≤ c → c < 300 → classify c = .success) ∧
    (∀ c : Int, 300 ≤ c → c < 400 → classify c = .redirect) ∧
    (∀ c : Int, 400 ≤ c → c < 500 → classify c = .clientError) ∧
    (∀ c : Int, 500 ≤ c → c < 600 → classify c = .serverError) ∧
    (∀ c : Int, c < 100 ∨ 600 ≤ c → classify c = .serverError) ∧
    (∀ c : Int, ∃! b : StatusBand, classify c = b) := by
  refine ⟨fun c h1 h2 => ?_, fun c h1 h2 => ?_, fun c h1 h2 => ?_,
    fun c h1 h2 => ?_, fun c h1 h2 => ?_, fun c h => ?_,
    fun c => ⟨classify c, rfl, fun b hb => hb.symm⟩⟩
  · exact (classify_eq_info_iff c).mpr ⟨h1, h2⟩
  · exact (classify_eq_success_iff c).mpr ⟨h1, h2⟩
  · exact (classify_eq_redirect_iff c).mpr ⟨h1, h2⟩
  · exact (classify_eq_clientError_iff c).mpr ⟨h1, h2⟩
  · exact (classify_eq_serverError_iff c).mpr (Or.inl ⟨h1, h2⟩)
  · exact (classify_eq_serverError_iff c).mpr (Or.inr h)

/-- Witness for C7: the band theorem applied at one concrete code per band. -/
theorem classify_bands_partition_witness :
    classify 150 = .info ∧ classify 250 = .success ∧
    classify 350 = .redirect ∧ classify 404 = .clientError ∧
    classify 500 = .serverError ∧ classify 700 = .serverError :=
  ⟨classify_bands_partition.1 150 (by decide) (by decide),
   classify_bands_partition.2.1 250 (by decide) (by decide),
   classify_bands_partition.2.2.1 350 (by decide) (by decide),
   classify_bands_partition.2.2.2.1 404 (by decide) (by decide),
   classify_bands_partition.2.2.2.2.1 500 (by decide) (by decide),
   classify_bands_partition.2.2.2.2.2.1 700 (Or.inr (by decide))⟩

/-! ### Response wrapper predicates (C8) -/

/-- Counterexample for C8: `failed` is not a pure function of the status
code and does not coincide with "code in an error band".  A non-redirected
301 response is `failed` although 301 classifies as redirect, and two wire
responses sharing status 500 disagree on `failed` depending on the wire
`redirected` flag. -/
theorem failed_not_pure_in_status :
    MapStatusToResponseType.failed ⟨301, false⟩ = true ∧
    classify 301 = .redirect ∧
    MapStatusToResponseType.failed ⟨500, true⟩ = false ∧
    MapStatusToResponseType.failed ⟨500, false⟩ = true ∧
    MapStatusToResponseType.statusCode ⟨500, true⟩ =
      MapStatusToResponseType.statusCode ⟨500, false⟩ ∧
    isServerError 500 = true := by
  decide

/-- C8 (amended): the wrapper's `status` is the wire response's numeric
code; `succeeded`, `clientError` and `serverError` are pure functions of
that code agreeing with the Classifier's bands; `failed`, however, is
`!succeeded && !redirected && !serverInfo`, so it also consults the wire
`redirected` flag and holds exactly when the code is ≥ 200, outside the
success band, and the response was not redirected. -/
theorem wrapper_predicates_follow_classifier :
    (∀ r : WireResponse, MapStatusToResponseType.statusCode r = r.status) ∧
    (∀ r : WireResponse,
      MapStatusToResponseType.succeeded r = true ↔ classify r.status = .success) ∧
    (∀ r : WireResponse,
      MapStatusToResponseType.clientError r = true ↔ classify r.status = .clientError) ∧
    (∀ r : WireResponse,
      MapStatusToResponseType.serverError r = true ↔ (500 ≤ r.status ∧ r.status < 600)) ∧
    (∀ r : WireResponse,
      MapStatusToResponseType.failed r = true ↔
        (MapStatusToResponseType.succeeded r = false ∧ r.redirected = false ∧
          200 ≤ r.status)) := by
  refine ⟨fun r => rfl, fun r => ?_, fun r => ?_, fun r => ?_, fun r => ?_⟩
  · rw [classify_eq_success_iff]
    simp only [MapStatusToResponseType.succeeded, MapStatusToResponseType.statusCode,
      Bool.and_eq_true, decide_eq_true_eq]
    omega
  · rw [classify_eq_clientError_iff]
    simp only [MapStatusToResponseType.clientError, MapStatusToResponseType.statusCode,
      isClientError, Bool.and_eq_true, decide_eq_true_eq]
  · simp only [MapStatusToResponseType.serverError, MapStatusToResponseType.statusCode,
      isServerError, Bool.and_eq_true, decide_eq_true_eq]
  · rcases r with ⟨s, red⟩
    simp only [MapStatusToResponseType.failed, MapStatusToResponseType.succeeded,
      MapStatusToResponseType.serverInfo, MapStatusToResponseType.redirectedFlag,
      MapStatusToResponseType.statusCode, Bool.and_eq_true, Bool.not_eq_true',
      Bool.and_eq_false_iff, decide_eq_true_eq, decide_eq_false_iff_not]
    cases red <;> simp <;> omega

/-- Witness for C8 (amended): the characterization applied to a concrete
204 No Content wire response. -/
theorem wrapper_predicates_follow_classifier_witness :
    MapStatusToResponseType.statusCode ⟨204, false⟩ = 204 ∧
    (MapStatusToResponseType.succeeded ⟨204, false⟩ = true ↔
      classify 204 = .success) ∧
    (MapStatusToResponseType.failed ⟨204, false⟩ = true ↔
      (MapStatusToResponseType.succeeded ⟨204, false⟩ = false ∧
        (false : Bool) = false ∧ (200 : Int) ≤ 204)) :=
  ⟨wrapper_predicates_follow_classifier.1 ⟨204, false⟩,
   wrapper_predicates_follow_classifier.2.1 ⟨204, false⟩,
   wrapper_predicates_follow_classifier.2.2.2.2 ⟨204, false⟩⟩

/-! ### Engine lemmas (C5, C6) -/

/-- Helper: a server-error status maps to the `error` response type. -/
theorem mapStatus_error_of_serverError {s : Int} (h : isServerError s = true) :
    mapStatusToResponseType s = .error := by
  simp only [isServerError, Bool.and_eq_true, decide_eq_true_eq] at h
  unfold mapStatusToResponseType
  rw [if_neg (by omega), if_neg (by omega), if_neg (by omega)]

/-- Helper: a client-error status maps to the `error` response type. -/
theorem mapStatus_error_of_clientError {s : Int} (h : isClientError s = true) :
    mapStatusToResponseType s = .error := by
  simp only [isClientError, Bool.and_eq_true, decide_eq_true_eq] at h
  unfold mapStatusToResponseType
  rw [if_neg (by omega), if_neg (by omega), if_neg (by omega)]

/-- Helper: a server-error status is not a client error. -/
theorem not_clientError_of_serverError {s : Int} (h : isServerError s = true) :
    isClientError s = false := by
  simp only [isServerError, Bool.and_eq_true, decide_eq_true_eq] at h
  simp only [isClientError, Bool.and_eq_false_iff, decide_eq_false_iff_not]
  omega

/-- C6: a client-error (4xx) wire status is returned as the parsed error
wrapper after exactly one network exchange, never retried, whatever the
attempt budget and the retry flag; concretely, attempts=3 against an
endpoint that always answers 404 performs exactly 1 network invocation and
returns (does not throw) a failed wrapper with status 404. -/
theorem client_error_never_retried :
    (safeFetch options404 false net404 = (.ok ⟨404, false⟩, 1) ∧
      MapStatusToResponseType.failed ⟨404, false⟩ = true ∧
      MapStatusToResponseType.statusCode ⟨404, false⟩ = 404) ∧
    (∀ (rc : Nat) (ror : Bool) (net : Nat → NetOutcome) (a r : Nat)
        (s : Int) (red : Bool),
      net a = NetOutcome.response s red → isClientError s = true →
      safeFetchGo rc ror net a (r + 1) = (.ok ⟨s, red⟩, 1)) := by
  refine ⟨⟨by decide, by decide, by decide⟩, ?_⟩
  intro rc ror net a r s red hnet hcl
  have hmap := mapStatus_error_of_clientError hcl
  simp [safeFetchGo, hnet, hmap, hcl]

/-- Witness for C6: the general statement applied at attempt 0 of a
three-attempt budget against the always-404 endpoint, with the retry flag
even switched on. -/
theorem client_error_never_retried_witness :
    safeFetchGo 3 true net404 0 (2 + 1) = (.ok ⟨404, false⟩, 1) :=
  client_error_never_retried.2 3 true net404 0 2 404 false (by decide) (by decide)

/-- C5: against an endpoint that always answers 500, attempts=3 with
retry-on-status opted in performs exactly 3 network invocations and returns
(does not throw) a failed wrapper with status 500; in general a server-error
wire status is returned immediately when the caller did not opt in or when
the attempt is the last one, and otherwise the engine retries, charging the
current exchange and continuing with the next attempt. -/
theorem server_error_retry_policy :
    (safeFetch optionsRetry500 false net500 = (.ok ⟨500, false⟩, 3) ∧
      MapStatusToResponseType.failed ⟨500, false⟩ = true ∧
      MapStatusToResponseType.statusCode ⟨500, false⟩ = 500) ∧
    (∀ (rc : Nat) (ror : Bool) (net : Nat → NetOutcome) (a r : Nat)
        (s : Int) (red : Bool),
      net a = NetOutcome.response s red → isServerError s = true →
      ((ror = false ∨ a = rc - 1) →
        safeFetchGo rc ror net a (r + 1) = (.ok ⟨s, red⟩, 1)) ∧
      (ror = true → a ≠ rc - 1 →
        safeFetchGo rc ror net a (r + 1) =
          ((safeFetchGo rc ror net (a + 1) r).1,
            (safeFetchGo rc ror net (a + 1) r).2 + 1))) := by
  refine ⟨⟨by decide, by decide, by decide⟩, ?_⟩
  intro rc ror net a r s red hnet hserv
  have hmap := mapStatus_error_of_serverError hserv
  have hcl := not_clientError_of_serverError hserv
  constructor
  · rintro (hror | hlast)
    · simp [safeFetchGo, hnet, hmap, hcl, hserv, hror]
    · subst hlast
      simp [safeFetchGo, hnet, hmap]
  · intro hror hlast
    simp [safeFetchGo, hnet, hmap, hcl, hserv, hror, hlast]

/-- Witness for C5: the general statement applied at the first attempt of a
three-attempt budget against the always-500 endpoint with the retry flag
off (returned immediately), and at the same attempt with the flag on
(retried, exchange charged). -/
theorem server_error_retry_policy_witness :
    safeFetchGo 3 false net500 0 (2 + 1) = (.ok ⟨500, false⟩, 1) ∧
    safeFetchGo 3 true net500 0 (2 + 1) =
      ((safeFetchGo 3 true net500 1 2).1, (safeFetchGo 3 true net500 1 2).2 + 1) :=
  ⟨(server_error_retry_policy.2 3 false net500 0 2 500 false (by decide)
      (by decide)).1 (Or.inl rfl),
   (server_error_retry_policy.2 3 true net500 0 2 500 false (by decide)
      (by decide)).2 rfl (by decide)⟩

/-! ### Cancellation and the engine (C2) -/

/-- Counterexample for C2: the shared token is tripped before attempt 0
starts, the options are the defaults `handle()` passes (timeout 45000, the
shared signal installed), yet the engine performs one full network exchange
and returns the endpoint's 200 response — no immediate cancellation error,
no suppression of the attempt.  The 45000 ms timeout makes the engine
overwrite `fetchParams.signal` with its per-attempt controller, so the
tripped token never reaches the `fetch`. -/
theorem tripped_token_engine_still_fetches :
    safeFetch optionsSignal true net200 = (.ok ⟨200, false⟩, 1) := by
  decide

/-- C2 (amended): the only cancellation check lives in `handle()`, which
rejects with the cancellation error before any phase or attempt when
`cancel()` preceded it (zero network exchanges); the engine itself can only
throw timeout, network, unexpected or fallthrough errors — no branch of the
attempt loop constructs a cancellation error or consults the token. -/
theorem cancellation_checked_only_before_engine :
    (∀ (o : FetchRequestOptions) (bus : BusBehavior) (net : Nat → NetOutcome),
      FetchRequest.handle o bus CancelPoint.beforeHandle net =
        { outcome := .failure .cancelled, trace := [], invocations := 0,
          delegateErrored := false }) ∧
    (∀ (rc : Nat) (ror : Bool) (net : Nat → NetOutcome) (r a : Nat)
        (e : FetchErrorKind),
      (safeFetchGo rc ror net a r).1 = SafeFetchResult.err e →
      e = .timeout ∨ e = .network ∨ e = .unexpected ∨ e = .fallthrough) := by
  constructor
  · intro o bus net; rfl
  · intro rc ror net r
    induction r with
    | zero =>
      intro a e h
      simp only [safeFetchGo, SafeFetchResult.err.injEq] at h
      exact Or.inr (Or.inr (Or.inr h.symm))
    | succ n ih =>
      intro a e h
      rcases hna : net a with ⟨s, red⟩ | _ | _ | _ <;>
          simp only [safeFetchGo, hna] at h <;>
          split_ifs at h <;>
          simp only [SafeFetchResult.err.injEq, reduceCtorEq] at h
      · exact ih (a + 1) e h
      · exact Or.inl h.symm
      · exact ih (a + 1) e h
      · exact Or.inr (Or.inl h.symm)
      · exact ih (a + 1) e h
      · exact Or.inr (Or.inr (Or.inl h.symm))
      · exact ih (a + 1) e h

/-- Witness for C2 (amended): the handle equality at concrete inputs, and
the error-kind bound at the all-abort endpoint, which exhausts three
attempts and throws the timeout error. -/
theorem cancellation_checked_only_before_engine_witness :
    FetchRequest.handle defaultOptions plainBus CancelPoint.beforeHandle net200 =
      { outcome := .failure .cancelled, trace := [], invocations := 0,
        delegateErrored := false } ∧
    (FetchErrorKind.timeout = .timeout ∨ FetchErrorKind.timeout = .network ∨
      FetchErrorKind.timeout = .unexpected ∨ FetchErrorKind.timeout = .fallthrough) :=
  ⟨cancellation_checked_only_before_engine.1 defaultOptions plainBus net200,
   cancellation_checked_only_before_engine.2 3 false netAbort 3 0 .timeout (by decide)⟩

/-! ### Deadline timer and the shared token (C4) -/

/-- C4 (code behaviour at the failing configuration): a zero timeout indeed
arms no deadline timer, but whenever the timeout is positive (and keep-alive
is off) the attempt's `fetch` listens only to the fresh per-attempt
controller — `fetchParams.signal` is overwritten — so tripping the shared
token has no effect whatsoever on the engine run: the run with the token
tripped equals the run with it untouched. -/
theorem deadline_timer_not_linked_to_token :
    (∀ o : FetchRequestOptions, normTimeout o = 0 → attemptHasTimer o = false) ∧
    (∀ o : FetchRequestOptions, o.keepalive = false → 0 < normTimeout o →
      attemptSignal o = .perAttempt) ∧
    (∀ (o : FetchRequestOptions) (net : Nat → NetOutcome),
      o.keepalive = false → 0 < normTimeout o →
      safeFetch o true net = safeFetch o false net) := by
  refine ⟨fun o h => ?_, fun o hk ht => ?_, fun o net hk ht => ?_⟩
  · simp [attemptHasTimer, h]
  · simp [attemptSignal, attemptHasTimer, hk, ht]
  · have hs : attemptSignal o = .perAttempt := by
      simp [attemptSignal, attemptHasTimer, hk, ht]
    have hnet : effectiveNet o true net = effectiveNet o false net := by
      funext i
      simp [effectiveNet, hs]
    unfold safeFetch
    rw [hnet]

/-- Witness for C4: a zero-timeout configuration runs untimed, while the
default 45000 ms configuration uses the per-attempt signal and ignores the
tripped token entirely. -/
theorem deadline_timer_not_linked_to_token_witness :
    attemptHasTimer
      { timeout := some 0, retryCount := none, retryOnStatusCode := false,
        keepalive := false, hasSignal := true } = false ∧
    attemptSignal optionsSignal = .perAttempt ∧
    safeFetch optionsSignal true net500 = safeFetch optionsSignal false net500 :=
  ⟨deadline_timer_not_linked_to_token.1 _ (by decide),
   deadline_timer_not_linked_to_token.2.1 optionsSignal (by decide) (by decide),
   deadline_timer_not_linked_to_token.2.2 optionsSignal net500 (by decide) (by decide)⟩

/-! ### TERMINATE dispatch (C1) -/

/-- Counterexample for C1: when `cancel()` precedes `handle()`, the guard at
the top of `handle()` throws the cancellation error before the
`try`/`finally` is entered, so `handle()` settles with zero TERMINATE
dispatches — not exactly one. -/
theorem precancel_skips_terminate :
    FetchRequest.handle optionsSignal shortBus CancelPoint.beforeHandle net500 =
      { outcome := .failure .cancelled, trace := [], invocations := 0,
        delegateErrored := false } ∧
    (FetchRequest.handle optionsSignal shortBus CancelPoint.beforeHandle
        net500).trace.count Phase.terminate = 0 :=
  ⟨rfl, rfl⟩

/-- C1 (amended): on every `handle()` run that passes the initial
cancellation guard and settles (success, short-circuit, recovered error,
unrecovered error), the TERMINATE event is dispatched exactly once before
`handle()` settles. -/
theorem terminate_once_when_pipeline_entered :
    ∀ (o : FetchRequestOptions) (bus : BusBehavior) (cp : CancelPoint)
      (net : Nat → NetOutcome),
      cp ≠ CancelPoint.beforeHandle →
      (FetchRequest.handle o bus cp net).outcome ≠ HandleOutcome.pending →
      (FetchRequest.handle o bus cp net).trace.count Phase.terminate = 1 := by
  intro o bus cp net hcp hp
  cases hb : (bus.requestPreventsDefault && !bus.requestInterceptionResolves) with
  | true =>
    exfalso
    apply hp
    unfold FetchRequest.handle
    rw [if_neg hcp, if_pos hb]
  | false =>
    rcases hreq : bus.requestResponse with _ | r
    · rcases hbs : bus.beforeSendResponse with _ | r
      · rw [handle_eq_of_engine o bus cp net hcp hb hreq hbs]
        rcases hrun : (safeFetch { o with hasSignal := true }
            (decide (cp = CancelPoint.duringFetch)) net).1 with r | e
        · simp [FetchRequest.responsePhase]
        · rcases herr : bus.errorResponse with _ | r <;>
            simp [FetchRequest.errorPhase, herr]
      · rw [handle_eq_of_beforeSendResponse o bus cp net r hcp hb hreq hbs]
        simp [FetchRequest.responsePhase]
    · rw [handle_eq_of_requestResponse o bus cp net r hcp hb hreq]
      simp [FetchRequest.responsePhase]

/-- Witness for C1 (amended): one TERMINATE on a plain successful run. -/
theorem terminate_once_when_pipeline_entered_witness :
    (FetchRequest.handle defaultOptions plainBus CancelPoint.never
      net200).trace.count Phase.terminate = 1 :=
  terminate_once_when_pipeline_entered defaultOptions plainBus CancelPoint.never
    net200 (by decide) (by decide)

/-! ### Cancellation semantics of `handle` and `cancel` (C3) -/

/-- Counterexample for C3: `cancel()` is called while the attempt's `fetch`
is in flight — before `handle()` settles — under the default 45000 ms
timeout; the per-attempt signal has replaced the shared one, the fetch
completes with 200, and `handle()` resolves successfully instead of
rejecting with a cancellation error. -/
theorem cancel_during_flight_handle_still_resolves :
    FetchRequest.handle defaultOptions plainBus CancelPoint.duringFetch net200 =
      { outcome := .success ⟨200, false⟩,
        trace := [Phase.request, Phase.beforeSend, Phase.response, Phase.terminate],
        invocations := 1, delegateErrored := false } := by
  decide

/-- C3 (amended): a `cancel()` issued before `handle()` is invoked makes
`handle()` reject with the cancellation error; after a first `cancel()` on a
constructed request `isCancelled()` reports true; and `cancel()` is
idempotent — a repeated call leaves the whole state (flag, controller,
abort, reject bookkeeping) unchanged and raises nothing. -/
theorem cancel_idempotent_and_precancel_rejects :
    (∀ (o : FetchRequestOptions) (bus : BusBehavior) (net : Nat → NetOutcome),
      (FetchRequest.handle o bus CancelPoint.beforeHandle net).outcome =
        .failure .cancelled) ∧
    (∀ s : FetchRequestState, s.hasController = true →
      FetchRequest.isCancelled (FetchRequest.cancel s) = true) ∧
    (∀ s : FetchRequestState,
      FetchRequest.cancel (FetchRequest.cancel s) = FetchRequest.cancel s) := by
  refine ⟨fun o bus net => rfl, fun s hs => ?_, fun s => ?_⟩
  · cases hc : s.isCancelledFlag <;>
      simp [FetchRequest.cancel, FetchRequest.isCancelled, hc, hs]
  · cases hc : s.isCancelledFlag <;> cases hh : s.hasController <;>
      simp [FetchRequest.cancel, hc, hh]

/-- Witness for C3 (amended): the three parts applied to a freshly
constructed request state and a concrete pre-cancelled run. -/
theorem cancel_idempotent_and_precancel_rejects_witness :
    (FetchRequest.handle options404 plainBus CancelPoint.beforeHandle
      net404).outcome = .failure .cancelled ∧
    FetchRequest.isCancelled (FetchRequest.cancel FetchRequest.initialState) = true ∧
    FetchRequest.cancel (FetchRequest.cancel FetchRequest.initialState) =
      FetchRequest.cancel FetchRequest.initialState :=
  ⟨cancel_idempotent_and_precancel_rejects.1 options404 plainBus net404,
   cancel_idempotent_and_precancel_rejects.2.1 FetchRequest.initialState rfl,
   cancel_idempotent_and_precancel_rejects.2.2 FetchRequest.initialState⟩

/-! ### REQUEST-phase short circuit (C9) -/

/-- C9: when a REQUEST-phase listener supplies a response, the engine is
never invoked (zero network exchanges), the BEFORE_SEND phase is skipped
(control goes straight to RESPONSE), and if no RESPONSE-phase listener
replaces the wrapper, `handle()` resolves with exactly the supplied
response. -/
theorem request_short_circuit_skips_network :
    ∀ (o : FetchRequestOptions) (bus : BusBehavior) (cp : CancelPoint)
      (net : Nat → NetOutcome) (r : WireResponse),
      cp ≠ CancelPoint.beforeHandle →
      (bus.requestPreventsDefault && !bus.requestInterceptionResolves) = false →
      bus.requestResponse = some r →
      (FetchRequest.handle o bus cp net).invocations = 0 ∧
      Phase.beforeSend ∉ (FetchRequest.handle o bus cp net).trace ∧
      (bus.responseReplace = none →
        (FetchRequest.handle o bus cp net).outcome = .success r) := by
  intro o bus cp net r hcp hb hr
  rw [handle_eq_of_requestResponse o bus cp net r hcp hb hr]
  refine ⟨rfl, ?_, fun hrep => ?_⟩
  · simp [FetchRequest.responsePhase]
  · simp [FetchRequest.responsePhase, hrep]

/-- Witness for C9: a cache-hit bus against the always-500 endpoint still
makes zero network exchanges and resolves with the cached 200 response. -/
theorem request_short_circuit_skips_network_witness :
    (FetchRequest.handle defaultOptions shortBus CancelPoint.never
      net500).invocations = 0 ∧
    Phase.beforeSend ∉ (FetchRequest.handle defaultOptions shortBus
      CancelPoint.never net500).trace ∧
    (FetchRequest.handle defaultOptions shortBus CancelPoint.never
      net500).outcome = .success ⟨200, false⟩ := by
  have h := request_short_circuit_skips_network defaultOptions shortBus
    CancelPoint.never net500 ⟨200, false⟩ (by decide) (by decide) (by decide)
  exact ⟨h.1, h.2.1, h.2.2 rfl⟩

/-! ### Double ERROR dispatch on the unrecovered path (C10) -/

/-- C10: when the engine throws and no ERROR-phase listener attaches a
response, `handle()` dispatches the ERROR event twice — once in
`dispatchErrorEvent` and once more inside `willDelegateErrorHandling`, each
with a freshly constructed event — before rethrowing the error. -/
theorem unrecovered_error_dispatches_error_twice :
    ∀ (o : FetchRequestOptions) (bus : BusBehavior) (net : Nat → NetOutcome)
      (e : FetchErrorKind),
      (bus.requestPreventsDefault && !bus.requestInterceptionResolves) = false →
      bus.requestResponse = none →
      bus.beforeSendResponse = none →
      bus.errorResponse = none →
      (safeFetch { o with hasSignal := true } false net).1 = .err e →
      (FetchRequest.handle o bus CancelPoint.never net).trace.count Phase.error = 2 ∧
      (FetchRequest.handle o bus CancelPoint.never net).outcome = .failure e := by
  intro o bus net e hb hreq hbs herr hrun
  rw [handle_eq_of_engine o bus CancelPoint.never net (by decide) hb hreq hbs]
  simp only [show decide (CancelPoint.never = CancelPoint.duringFetch) = false from
    rfl] at *
  rw [hrun]
  simp [FetchRequest.errorPhase, herr]

/-- Witness for C10: the all-abort endpoint exhausts three attempts, the
engine throws the timeout error, no listener recovers, and the run shows
two ERROR dispatches and the rethrown timeout failure. -/
theorem unrecovered_error_dispatches_error_twice_witness :
    (FetchRequest.handle defaultOptions plainBus CancelPoint.never
      netAbort).trace.count Phase.error = 2 ∧
    (FetchRequest.handle defaultOptions plainBus CancelPoint.never
      netAbort).outcome = .failure .timeout :=
  unrecovered_error_dispatches_error_twice defaultOptions plainBus netAbort
    .timeout (by decide) rfl rfl rfl (by decide)

end HttpClient
